import Mathlib

/-!
Shallow embedding of the TC33 fixed-width capture-file parser
(`parser_app/tc33_definitions.py` and `parser_app/services.py`):
the field-level byte-range decoder, the schema registry, and the stateful
line-by-line transaction assembler, together with theorems checking the
design document's claims about them.
-/

namespace TC33

/-- Whitespace characters stripped by Python `str.strip()` (ASCII subset;
the input format is ASCII fixed-width text). -/
def isPySpace (c : Char) : Bool :=
  c = ' ' || c = '\t' || c = '\n' || c = '\r' || c = '\x0b' || c = '\x0c'

/-- Python `s.strip()`: remove leading and trailing whitespace. -/
def pyStrip (s : String) : String :=
  String.mk (((s.data.dropWhile isPySpace).reverse.dropWhile isPySpace).reverse)

/-- Python `s.upper()` on the ASCII strings this parser handles. -/
def pyUpper (s : String) : String := String.mk (s.data.map Char.toUpper)

/-- Python `s.ljust(n, ' ')`: right-pad with spaces to length `n`. -/
def ljust (s : String) (n : Nat) : String :=
  s ++ String.mk (List.replicate (n - s.length) ' ')

/-- Python `s[a:b]` for `0 ≤ a ≤ b` (clamping at the string's end). -/
def pySlice (s : String) (a b : Nat) : String :=
  String.mk ((s.data.drop a).take (b - a))

/-- Python `s.startswith(pre)`, computed on the character list. -/
def pyStartsWith (s pre : String) : Bool := pre.data.isPrefixOf s.data

/-- Python `s.endswith(suf)`, computed on the character list. -/
def pyEndsWith (s suf : String) : Bool := suf.data.isSuffixOf s.data

/-- Python `c in s` for a single character, computed on the character list. -/
def pyContainsChar (s : String) (c : Char) : Bool := s.data.contains c

/-- Value of a nonempty all-digit character list, base 10; `none` otherwise. -/
def digitsToNat? (cs : List Char) : Option Nat :=
  if cs ≠ [] ∧ cs.all Char.isDigit then
    some (cs.foldl (fun n c => 10 * n + (c.toNat - '0'.toNat)) 0)
  else none

/-- Value of an all-digit character list, base 10 (0 for the empty list). -/
def digitsVal (cs : List Char) : Nat :=
  cs.foldl (fun n c => 10 * n + (c.toNat - '0'.toNat)) 0

/-- Python `int(s)` on an already-stripped string: an optional sign followed
by decimal digits.  Underscore separators and other exotic accepted forms are
not modelled (they cannot occur in fixed-width numeric fields); `none` models
`ValueError`. -/
def pyInt (s : String) : Option Int :=
  match s.data with
  | '+' :: rest => (digitsToNat? rest).map Int.ofNat
  | '-' :: rest => (digitsToNat? rest).map (fun n => -(n : Int))
  | cs => (digitsToNat? cs).map Int.ofNat

/-- Python `float(s)` on an already-stripped string, restricted to the plain
decimal forms `[sign] digits [. digits]` with at least one digit; the result
is the exact rational value.  Exponent, `inf` and `nan` forms are not modelled
and yield `none`, i.e. `ValueError`. -/
def pyFloat (s : String) : Option Rat :=
  let core (cs : List Char) : Option Rat :=
    let ip := cs.takeWhile Char.isDigit
    match cs.dropWhile Char.isDigit with
    | [] => if ip = [] then none else some ((digitsVal ip : Nat) : Rat)
    | '.' :: fp =>
      if fp.all Char.isDigit ∧ (ip ≠ [] ∨ fp ≠ []) then
        some (((digitsVal ip : Nat) : Rat) + ((digitsVal fp : Nat) : Rat) / ((10 : Rat) ^ fp.length))
      else none
    | _ => none
  match s.data with
  | '+' :: rest => core rest
  | '-' :: rest => (core rest).map Neg.neg
  | cs => core cs

/-- A Python value as produced by field decoding: `int`, `float` (modelled as
an exact rational) or `str`. -/
inductive PyVal where
  | int (n : Int)
  | real (q : Rat)
  | str (s : String)
deriving DecidableEq, Repr

/-- Python truthiness of the values above (`if v:`). -/
def PyVal.truthy : PyVal → Bool
  | .int n => n ≠ 0
  | .real q => q ≠ 0
  | .str s => s ≠ ""

/-- Lookup in an insertion-ordered dictionary modelled as an association list
(Python `d.get(k)` / `d[k]`); every dictionary this parser builds has distinct
keys, so first-match lookup and Python dict lookup agree. -/
def dictGet {α β : Type} [DecidableEq α] (k : α) : List (α × β) → Option β
  | [] => none
  | (k', v) :: rest => if k' = k then some v else dictGet k rest

/-- Model of `Field` from tc33_definitions.py: one named byte range plus a
decoding format.  The `description` string is diagnostic only, read by no
code, and is not transcribed. -/
structure Field where
  name : String
  start : Nat
  length : Nat
  data_format : String
deriving DecidableEq, Repr

/-- `self.python_start = start - 1` (0-based slice start). -/
def Field.python_start (f : Field) : Nat := f.start - 1

/-- `self.python_end = self.python_start + length` (exclusive slice end). -/
def Field.python_end (f : Field) : Nat := f.python_start + f.length

/-- Model of `TCRDefinition` from tc33_definitions.py; `fields` is the
insertion-ordered dict `{field.name: field}`. -/
structure TCRDefinition where
  tcr_type : String
  tcr_qualifier : String
  tcr_sequence : String
  application_code : String
  fields : List (String × Field)
deriving DecidableEq, Repr

/-- The dict comprehension `{field.name: field for field in fields}`
(no schema has two fields with the same name). -/
def fieldsOf (l : List Field) : List (String × Field) :=
  l.map (fun f => (f.name, f))

/-- The format-directed conversion inside `TCRDefinition.get_field_value`
(tc33_definitions.py lines 51-67), applied to the sliced raw value. -/
def decodeValue (data_format value : String) : PyVal :=
  if data_format = "UN" ∨ data_format = "N" then
    let stripped_value := pyStrip value
    if stripped_value = "" then .int 0
    else if pyContainsChar stripped_value '.' then
      match pyFloat stripped_value with
      | some q => .real q
      | none => .int 0
    else
      match pyInt stripped_value with
      | some n => .int n
      | none => .int 0
  else if data_format = "AN" ∨ data_format = "ANS" ∨ data_format = "DX" then
    .str (pyStrip value)
  else
    .str (pyStrip value)

/-- `TCRDefinition.get_field_value` (tc33_definitions.py lines 34-67): pad a
short line with spaces up to the field's end offset, slice the field's byte
range, and convert.  `.error` models the `ValueError` raised for a field name
not defined on the schema. -/
def get_field_value (d : TCRDefinition) (line field_name : String) : Except String PyVal :=
  match dictGet field_name d.fields with
  | none => .error ("Field not defined: " ++ field_name)
  | some field =>
    let line := if line.length < field.python_end then ljust line field.python_end else line
    let value := pySlice line field.python_start field.python_end
    .ok (decodeValue field.data_format value)

/-- A key of the `TCR_DEFINITIONS` dictionary: either an
(application code, sequence number) tuple or a bare string name. -/
inductive DefKey where
  | pair (app seq : String)
  | sname (s : String)
deriving DecidableEq, Repr
/-- Transcribed from tc33_definitions.py: `TCR_HEADER` (descriptions omitted; they are diagnostic strings unused by any logic). -/
def TCR_HEADER : TCRDefinition :=
  { tcr_type := "33", tcr_qualifier := "0", tcr_sequence := "0", application_code := "HEDR",
    fields := fieldsOf [
      ⟨"Transaction Code", 1, 2, "UN"⟩,
      ⟨"Transaction Code Qualifier", 3, 1, "UN"⟩,
      ⟨"Transaction Component Sequence Number", 4, 1, "AN"⟩,
      ⟨"Destination Identifier", 5, 6, "UN"⟩,
      ⟨"Source Identifier", 11, 6, "UN"⟩,
      ⟨"TC 33 Application Code - Header", 17, 4, "AN"⟩,
      ⟨"Capture File Number", 21, 4, "UN"⟩,
      ⟨"Capture Creation Date", 25, 8, "UN"⟩,
      ⟨"Reserved", 33, 136, "AN"⟩
    ] }

/-- Transcribed from tc33_definitions.py: `TCR_TRAILER` (descriptions omitted; they are diagnostic strings unused by any logic). -/
def TCR_TRAILER : TCRDefinition :=
  { tcr_type := "33", tcr_qualifier := "0", tcr_sequence := "0", application_code := "TRLR",
    fields := fieldsOf [
      ⟨"Transaction Code", 1, 2, "UN"⟩,
      ⟨"Transaction Code Qualifier", 3, 1, "UN"⟩,
      ⟨"Transaction Component Sequence Number", 4, 1, "AN"⟩,
      ⟨"Destination Identifier", 5, 6, "UN"⟩,
      ⟨"Source Identifier", 11, 6, "UN"⟩,
      ⟨"TC 33 Application Code - Trailer", 17, 4, "AN"⟩,
      ⟨"Capture File Number", 21, 4, "UN"⟩,
      ⟨"Capture Creation Date", 25, 8, "UN"⟩,
      ⟨"Total Transaction Count", 33, 9, "UN"⟩,
      ⟨"Total Transaction Amount", 42, 20, "UN"⟩,
      ⟨"Reserved", 62, 107, "AN"⟩
    ] }

/-- Transcribed from tc33_definitions.py: `CP01_TCR0` (descriptions omitted; they are diagnostic strings unused by any logic). -/
def CP01_TCR0 : TCRDefinition :=
  { tcr_type := "33", tcr_qualifier := "0", tcr_sequence := "0", application_code := "CP01",
    fields := fieldsOf [
      ⟨"Transaction Code", 1, 2, "UN"⟩,
      ⟨"Transaction Code Qualifier", 3, 1, "UN"⟩,
      ⟨"Transaction Component Sequence Number", 4, 1, "AN"⟩,
      ⟨"Destination Identifier", 5, 6, "UN"⟩,
      ⟨"Source Identifier", 11, 6, "UN"⟩,
      ⟨"TC 33 Application Code", 17, 4, "AN"⟩,
      ⟨"Message Identifier", 21, 15, "AN"⟩,
      ⟨"Transaction Identifier", 36, 15, "AN"⟩,
      ⟨"Retrieval Reference Number", 51, 12, "AN"⟩,
      ⟨"Account Number", 63, 16, "AN"⟩,
      ⟨"Account Number Extension", 79, 3, "AN"⟩,
      ⟨"Expiration Date", 82, 4, "AN"⟩,
      ⟨"Purchase Date", 86, 4, "UN"⟩,
      ⟨"Authorization Date", 90, 4, "AN"⟩,
      ⟨"Decimal Positions Indicator", 94, 2, "AN"⟩,
      ⟨"Authorized Amount", 96, 12, "UN"⟩,
      ⟨"Authorization Currency Code", 108, 3, "AN"⟩,
      ⟨"Total Authorized Amount", 111, 12, "UN"⟩,
      ⟨"Source Amount", 123, 12, "UN"⟩,
      ⟨"Source Currency Code", 135, 3, "AN"⟩,
      ⟨"Tip Amount", 138, 12, "UN"⟩,
      ⟨"Action Code", 150, 2, "AN"⟩,
      ⟨"Service Identifier", 152, 2, "AN"⟩,
      ⟨"Acquiring Identifier", 154, 6, "UN"⟩,
      ⟨"Message Reason Code", 160, 4, "AN"⟩,
      ⟨"Additional Authorization Indicator", 164, 1, "N"⟩,
      ⟨"Domestic Switch ID", 165, 4, "AN"⟩
    ] }

/-- Transcribed from tc33_definitions.py: `CP01_TCR1` (descriptions omitted; they are diagnostic strings unused by any logic). -/
def CP01_TCR1 : TCRDefinition :=
  { tcr_type := "33", tcr_qualifier := "0", tcr_sequence := "1", application_code := "CP01",
    fields := fieldsOf [
      ⟨"Transaction Code", 1, 2, "UN"⟩,
      ⟨"Transaction Code Qualifier", 3, 1, "UN"⟩,
      ⟨"Transaction Component Sequence Number", 4, 1, "AN"⟩,
      ⟨"Capture Date", 5, 4, "UN"⟩,
      ⟨"Authorization Code", 9, 6, "AN"⟩,
      ⟨"POS Entry Mode", 15, 2, "AN"⟩,
      ⟨"Card Acceptor ID", 17, 15, "ANS"⟩,
      ⟨"Terminal ID", 32, 8, "ANS"⟩,
      ⟨"Mail/Phone/Electronic Commerce and Payment Indicator", 40, 1, "AN"⟩,
      ⟨"Unattended Acceptance Terminal Indicator", 41, 1, "AN"⟩,
      ⟨"AVS Response Code", 42, 1, "AN"⟩,
      ⟨"Authorization Source Code", 43, 1, "AN"⟩,
      ⟨"Purchase Identifier Format", 44, 1, "AN"⟩,
      ⟨"Purchase Identifier", 45, 25, "AN"⟩,
      ⟨"Card ID", 70, 2, "AN"⟩,
      ⟨"Point-of-Service Condition Code", 72, 2, "AN"⟩,
      ⟨"Processing Code", 74, 6, "AN"⟩,
      ⟨"Network ID", 80, 4, "AN"⟩,
      ⟨"Authorization Response Code", 84, 2, "AN"⟩,
      ⟨"Validation Code", 86, 4, "AN"⟩,
      ⟨"Market-Specific Authorization Data Indicator", 90, 1, "AN"⟩,
      ⟨"Product ID", 91, 2, "AN"⟩,
      ⟨"Program ID", 93, 6, "AN"⟩,
      ⟨"CVV2 Result Code", 99, 1, "AN"⟩,
      ⟨"Authorization Characteristics Indicator", 100, 1, "AN"⟩,
      ⟨"POS Terminal Capability", 101, 1, "AN"⟩,
      ⟨"Cardholder ID Method", 102, 1, "AN"⟩,
      ⟨"Request ID", 103, 26, "AN"⟩,
      ⟨"Electronic Commerce Goods Indicator", 129, 2, "AN"⟩,
      ⟨"Fee Program Indicator", 131, 3, "AN"⟩,
      ⟨"Service Development Field", 134, 1, "AN"⟩,
      ⟨"Account Selection", 135, 1, "AN"⟩,
      ⟨"POS Environment", 136, 1, "AN"⟩,
      ⟨"Time of Purchase", 137, 4, "UN"⟩,
      ⟨"Batch Request ID", 141, 26, "AN"⟩,
      ⟨"Spend Qualified Indicator", 167, 1, "AN"⟩,
      ⟨"CAVV Results Code", 168, 1, "AN"⟩
    ] }

/-- Transcribed from tc33_definitions.py: `CP01_TCR2` (descriptions omitted; they are diagnostic strings unused by any logic). -/
def CP01_TCR2 : TCRDefinition :=
  { tcr_type := "33", tcr_qualifier := "0", tcr_sequence := "2", application_code := "CP01",
    fields := fieldsOf [
      ⟨"Transaction Code", 1, 2, "UN"⟩,
      ⟨"Transaction Code Qualifier", 3, 1, "UN"⟩,
      ⟨"Transaction Component Sequence Number", 4, 1, "AN"⟩,
      ⟨"Bill to Last Name", 5, 60, "ANS"⟩,
      ⟨"Bill to First Name", 65, 60, "ANS"⟩,
      ⟨"Bill to Postal Code", 125, 11, "ANS"⟩,
      ⟨"Ship to Postal Code", 136, 20, "ANS"⟩,
      ⟨"Ship to State/Province Code", 156, 3, "ANS"⟩,
      ⟨"Ship from Postal Code", 159, 10, "ANS"⟩
    ] }

/-- Transcribed from tc33_definitions.py: `CP01_TCR3` (descriptions omitted; they are diagnostic strings unused by any logic). -/
def CP01_TCR3 : TCRDefinition :=
  { tcr_type := "33", tcr_qualifier := "0", tcr_sequence := "3", application_code := "CP01",
    fields := fieldsOf [
      ⟨"Transaction Code", 1, 2, "UN"⟩,
      ⟨"Transaction Code Qualifier", 3, 1, "UN"⟩,
      ⟨"Transaction Component Sequence Number", 4, 1, "AN"⟩,
      ⟨"Ship to Country Code", 5, 3, "AN"⟩,
      ⟨"Address Line 1", 8, 40, "ANS"⟩,
      ⟨"Address Line 2", 48, 40, "ANS"⟩,
      ⟨"City", 88, 50, "ANS"⟩,
      ⟨"State", 138, 20, "ANS"⟩,
      ⟨"Billing Country Code", 158, 3, "AN"⟩,
      ⟨"Reserved", 161, 8, "AN"⟩
    ] }

/-- Transcribed from tc33_definitions.py: `CP01_TCR4` (descriptions omitted; they are diagnostic strings unused by any logic). -/
def CP01_TCR4 : TCRDefinition :=
  { tcr_type := "33", tcr_qualifier := "0", tcr_sequence := "4", application_code := "CP01",
    fields := fieldsOf [
      ⟨"Transaction Code", 1, 2, "UN"⟩,
      ⟨"Transaction Code Qualifier", 3, 1, "UN"⟩,
      ⟨"Transaction Component Sequence Number", 4, 1, "AN"⟩,
      ⟨"Merchant Name", 5, 25, "ANS"⟩,
      ⟨"Merchant Street Address", 30, 60, "ANS"⟩,
      ⟨"Merchant City", 90, 13, "ANS"⟩,
      ⟨"Merchant State/Province", 103, 3, "ANS"⟩,
      ⟨"Merchant Country", 106, 3, "AN"⟩,
      ⟨"Merchant Postal Code", 109, 9, "ANS"⟩,
      ⟨"Merchant Phone Number", 118, 15, "ANS"⟩,
      ⟨"Merchant URL", 133, 30, "ANS"⟩,
      ⟨"Merchant Category Code", 163, 4, "AN"⟩,
      ⟨"Reserved", 167, 2, "AN"⟩
    ] }

/-- Transcribed from tc33_definitions.py: `CP01_TCR5` (descriptions omitted; they are diagnostic strings unused by any logic). -/
def CP01_TCR5 : TCRDefinition :=
  { tcr_type := "33", tcr_qualifier := "0", tcr_sequence := "5", application_code := "CP01",
    fields := fieldsOf [
      ⟨"Transaction Code", 1, 2, "UN"⟩,
      ⟨"Transaction Code Qualifier", 3, 1, "UN"⟩,
      ⟨"Transaction Component Sequence Number", 4, 1, "AN"⟩,
      ⟨"Installment Payment Count", 5, 3, "UN"⟩,
      ⟨"Installment Payment Frequency", 8, 1, "AN"⟩,
      ⟨"Installment Payment Amount", 9, 12, "UN"⟩,
      ⟨"Installment First Payment Date", 21, 6, "UN"⟩,
      ⟨"Installment Grace Period Duration", 27, 3, "UN"⟩,
      ⟨"Installment Grace Period Duration Type", 30, 1, "AN"⟩,
      ⟨"Installment Transaction ID", 31, 15, "AN"⟩,
      ⟨"Reserved", 46, 123, "AN"⟩
    ] }

/-- Transcribed from tc33_definitions.py: `CP01_TCR6` (descriptions omitted; they are diagnostic strings unused by any logic). -/
def CP01_TCR6 : TCRDefinition :=
  { tcr_type := "33", tcr_qualifier := "0", tcr_sequence := "6", application_code := "CP01",
    fields := fieldsOf [
      ⟨"Transaction Code", 1, 2, "UN"⟩,
      ⟨"Transaction Code Qualifier", 3, 1, "UN"⟩,
      ⟨"Transaction Component Sequence Number", 4, 1, "AN"⟩,
      ⟨"Cardholder Authentication Verification Value", 5, 20, "ANS"⟩,
      ⟨"Network Transaction Identifier", 25, 15, "AN"⟩,
      ⟨"Message Integrity Check Value", 40, 20, "DX"⟩,
      ⟨"Transaction Security Level", 60, 2, "AN"⟩,
      ⟨"Transaction ID for 3D Secure", 62, 28, "ANS"⟩,
      ⟨"Program Protocol", 90, 2, "AN"⟩,
      ⟨"Directory Server Transaction ID", 92, 28, "ANS"⟩,
      ⟨"Reserved", 120, 49, "AN"⟩
    ] }

/-- Transcribed from tc33_definitions.py: `CP01_TCR7` (descriptions omitted; they are diagnostic strings unused by any logic). -/
def CP01_TCR7 : TCRDefinition :=
  { tcr_type := "33", tcr_qualifier := "0", tcr_sequence := "7", application_code := "CP01",
    fields := fieldsOf [
      ⟨"Transaction Code", 1, 2, "UN"⟩,
      ⟨"Transaction Code Qualifier", 3, 1, "UN"⟩,
      ⟨"Transaction Component Sequence Number", 4, 1, "AN"⟩,
      ⟨"Processor Supplied Data", 5, 164, "ANS"⟩
    ] }

/-- Transcribed from tc33_definitions.py: `CP01_TCR8` (descriptions omitted; they are diagnostic strings unused by any logic). -/
def CP01_TCR8 : TCRDefinition :=
  { tcr_type := "33", tcr_qualifier := "0", tcr_sequence := "8", application_code := "CP01",
    fields := fieldsOf [
      ⟨"Transaction Code", 1, 2, "UN"⟩,
      ⟨"Transaction Code Qualifier", 3, 1, "UN"⟩,
      ⟨"Transaction Component Sequence Number", 4, 1, "AN"⟩,
      ⟨"Transaction Type Indicator", 5, 1, "AN"⟩,
      ⟨"Recurring Transaction Indicator", 6, 1, "AN"⟩,
      ⟨"Payment Facilitator ID", 7, 11, "AN"⟩,
      ⟨"Sub-Merchant ID", 18, 15, "AN"⟩,
      ⟨"Reserved", 33, 136, "AN"⟩
    ] }

/-- Transcribed from tc33_definitions.py: `CP01_TCR9_GENERIC` (descriptions omitted; they are diagnostic strings unused by any logic). -/
def CP01_TCR9_GENERIC : TCRDefinition :=
  { tcr_type := "33", tcr_qualifier := "0", tcr_sequence := "9", application_code := "CP01",
    fields := fieldsOf [
      ⟨"Transaction Code", 1, 2, "UN"⟩,
      ⟨"Transaction Code Qualifier", 3, 1, "UN"⟩,
      ⟨"Transaction Component Sequence Number", 4, 1, "AN"⟩,
      ⟨"Intra-Country Data", 5, 164, "ANS"⟩
    ] }

/-- Transcribed from tc33_definitions.py: `CP01_TCR9_COL` (descriptions omitted; they are diagnostic strings unused by any logic). -/
def CP01_TCR9_COL : TCRDefinition :=
  { tcr_type := "33", tcr_qualifier := "0", tcr_sequence := "9", application_code := "CP01",
    fields := fieldsOf [
      ⟨"Transaction Code", 1, 2, "UN"⟩,
      ⟨"Transaction Code Qualifier", 3, 1, "UN"⟩,
      ⟨"Transaction Component Sequence Number", 4, 1, "AN"⟩,
      ⟨"National Data Country Code", 5, 3, "AN"⟩,
      ⟨"Payment Method", 8, 2, "AN"⟩,
      ⟨"Taxable Amount", 10, 12, "UN"⟩,
      ⟨"Tax Amount", 22, 12, "UN"⟩,
      ⟨"Non-Taxable Amount", 34, 12, "UN"⟩,
      ⟨"Installment Count", 46, 3, "N"⟩,
      ⟨"Merchant Industry", 49, 4, "AN"⟩,
      ⟨"Discount Amount", 53, 12, "UN"⟩,
      ⟨"Invoice Number", 65, 20, "AN"⟩,
      ⟨"POS System Trace Audit Number", 85, 6, "AN"⟩,
      ⟨"Cashback Amount", 91, 12, "UN"⟩,
      ⟨"Reserved", 103, 66, "AN"⟩
    ] }

/-- Transcribed from tc33_definitions.py: `CP01_TCR9_JPN` (descriptions omitted; they are diagnostic strings unused by any logic). -/
def CP01_TCR9_JPN : TCRDefinition :=
  { tcr_type := "33", tcr_qualifier := "0", tcr_sequence := "9", application_code := "CP01",
    fields := fieldsOf [
      ⟨"Transaction Code", 1, 2, "UN"⟩,
      ⟨"Transaction Code Qualifier", 3, 1, "UN"⟩,
      ⟨"Transaction Component Sequence Number", 4, 1, "AN"⟩,
      ⟨"JCN Purchase Plan Code", 5, 2, "AN"⟩,
      ⟨"JCN Purchase Plan Amount", 7, 12, "UN"⟩,
      ⟨"JCN Purchase Plan Tax Amount", 19, 12, "UN"⟩,
      ⟨"Reserved", 31, 138, "AN"⟩
    ] }

/-- Transcribed from tc33_definitions.py: `CP01_TCR9_MEX` (descriptions omitted; they are diagnostic strings unused by any logic). -/
def CP01_TCR9_MEX : TCRDefinition :=
  { tcr_type := "33", tcr_qualifier := "0", tcr_sequence := "9", application_code := "CP01",
    fields := fieldsOf [
      ⟨"Transaction Code", 1, 2, "UN"⟩,
      ⟨"Transaction Code Qualifier", 3, 1, "UN"⟩,
      ⟨"Transaction Component Sequence Number", 4, 1, "AN"⟩,
      ⟨"Mexico Installment Indicator", 5, 1, "AN"⟩,
      ⟨"Mexico Installment Number", 6, 2, "N"⟩,
      ⟨"Mexico Coupon Code", 8, 4, "AN"⟩,
      ⟨"Mexico Cashback Amount", 12, 12, "UN"⟩,
      ⟨"Reserved", 24, 145, "AN"⟩
    ] }

/-- Transcribed from tc33_definitions.py: `CP01_TCRA` (descriptions omitted; they are diagnostic strings unused by any logic). -/
def CP01_TCRA : TCRDefinition :=
  { tcr_type := "33", tcr_qualifier := "0", tcr_sequence := "A", application_code := "CP01",
    fields := fieldsOf [
      ⟨"Transaction Code", 1, 2, "UN"⟩,
      ⟨"Transaction Code Qualifier", 3, 1, "UN"⟩,
      ⟨"Transaction Component Sequence Number", 4, 1, "AN"⟩,
      ⟨"Currency Conversion Rate", 5, 12, "UN"⟩,
      ⟨"Original Currency Amount", 17, 12, "UN"⟩,
      ⟨"Original Currency Code", 29, 3, "AN"⟩,
      ⟨"Converted Amount", 32, 12, "UN"⟩,
      ⟨"Converted Currency Code", 44, 3, "AN"⟩,
      ⟨"Reserved", 47, 122, "AN"⟩
    ] }

/-- Transcribed from tc33_definitions.py: `CP01_TCRB` (descriptions omitted; they are diagnostic strings unused by any logic). -/
def CP01_TCRB : TCRDefinition :=
  { tcr_type := "33", tcr_qualifier := "0", tcr_sequence := "B", application_code := "CP01",
    fields := fieldsOf [
      ⟨"Transaction Code", 1, 2, "UN"⟩,
      ⟨"Transaction Code Qualifier", 3, 1, "UN"⟩,
      ⟨"Transaction Component Sequence Number", 4, 1, "AN"⟩,
      ⟨"Gateway Reference ID", 5, 20, "AN"⟩,
      ⟨"Gateway Transaction Time", 25, 6, "UN"⟩,
      ⟨"Gateway Transaction Date", 31, 8, "UN"⟩,
      ⟨"Reserved", 39, 130, "AN"⟩
    ] }

/-- Transcribed from tc33_definitions.py: `CP02_TCR0` (descriptions omitted; they are diagnostic strings unused by any logic). -/
def CP02_TCR0 : TCRDefinition :=
  { tcr_type := "33", tcr_qualifier := "0", tcr_sequence := "0", application_code := "CP02",
    fields := fieldsOf [
      ⟨"Transaction Code", 1, 2, "UN"⟩,
      ⟨"Transaction Code Qualifier", 3, 1, "UN"⟩,
      ⟨"Transaction Component Sequence Number", 4, 1, "AN"⟩,
      ⟨"Destination Identifier", 5, 6, "UN"⟩,
      ⟨"Source Identifier", 11, 6, "UN"⟩,
      ⟨"TC 33 Application Code", 17, 4, "AN"⟩,
      ⟨"Message Identifier", 21, 15, "AN"⟩,
      ⟨"Application Interchange Profile", 36, 4, "DX"⟩,
      ⟨"Dedicated File Name", 40, 32, "DX"⟩,
      ⟨"Terminal Capabilities", 72, 6, "DX"⟩,
      ⟨"Terminal Country Code", 78, 4, "DX"⟩,
      ⟨"Transaction Currency Code", 82, 4, "DX"⟩,
      ⟨"Transaction Date", 86, 6, "DX"⟩,
      ⟨"Transaction Type", 92, 2, "DX"⟩,
      ⟨"Unpredictable Number", 94, 8, "DX"⟩,
      ⟨"Amount Authorized (Binary)", 102, 12, "DX"⟩,
      ⟨"Amount Other (Binary)", 114, 12, "DX"⟩,
      ⟨"Application Transaction Counter", 126, 4, "DX"⟩,
      ⟨"Cryptogram", 130, 16, "DX"⟩,
      ⟨"Cryptogram Information Data", 146, 2, "DX"⟩,
      ⟨"Issuer Application Data", 148, 32, "DX"⟩,
      ⟨"Issuer Application Data (part 1)", 148, 21, "DX"⟩
    ] }

/-- Transcribed from tc33_definitions.py: `CP02_TCR1` (descriptions omitted; they are diagnostic strings unused by any logic). -/
def CP02_TCR1 : TCRDefinition :=
  { tcr_type := "33", tcr_qualifier := "0", tcr_sequence := "1", application_code := "CP02",
    fields := fieldsOf [
      ⟨"Transaction Code", 1, 2, "UN"⟩,
      ⟨"Transaction Code Qualifier", 3, 1, "UN"⟩,
      ⟨"Transaction Component Sequence Number", 4, 1, "AN"⟩,
      ⟨"Terminal Verification Results", 5, 10, "DX"⟩,
      ⟨"Transaction Status Information", 15, 4, "DX"⟩,
      ⟨"Cardholder Verification Method Results", 19, 6, "DX"⟩,
      ⟨"Issuer Authentication Data", 25, 32, "DX"⟩,
      ⟨"Cryptogram Version Number", 57, 2, "DX"⟩,
      ⟨"Terminal Type", 59, 2, "DX"⟩,
      ⟨"Terminal Capabilities (part 2)", 61, 2, "DX"⟩,
      ⟨"Dedicated File Name (part 2)", 63, 10, "DX"⟩,
      ⟨"Filler", 73, 96, "AN"⟩
    ] }

/-- Transcribed from tc33_definitions.py: `CP03_TCR0` (descriptions omitted; they are diagnostic strings unused by any logic). -/
def CP03_TCR0 : TCRDefinition :=
  { tcr_type := "33", tcr_qualifier := "0", tcr_sequence := "0", application_code := "CP03",
    fields := fieldsOf [
      ⟨"Transaction Code", 1, 2, "UN"⟩,
      ⟨"Transaction Code Qualifier", 3, 1, "UN"⟩,
      ⟨"Transaction Component Sequence Number", 4, 1, "AN"⟩,
      ⟨"Destination Identifier", 5, 6, "UN"⟩,
      ⟨"Source Identifier", 11, 6, "UN"⟩,
      ⟨"TC 33 Application Code", 17, 4, "AN"⟩,
      ⟨"Message Identifier", 21, 15, "AN"⟩,
      ⟨"Lodging Property Type", 36, 2, "AN"⟩,
      ⟨"Lodging Chain Code", 38, 3, "AN"⟩,
      ⟨"Lodging Property ID", 41, 11, "AN"⟩,
      ⟨"Check-in Date", 52, 8, "UN"⟩,
      ⟨"Check-out Date", 60, 8, "UN"⟩,
      ⟨"Total Room Nights", 68, 3, "UN"⟩,
      ⟨"Room Rate", 71, 12, "UN"⟩,
      ⟨"Reserved", 83, 86, "AN"⟩
    ] }

/-- Transcribed from tc33_definitions.py: `CP03_TCR1` (descriptions omitted; they are diagnostic strings unused by any logic). -/
def CP03_TCR1 : TCRDefinition :=
  { tcr_type := "33", tcr_qualifier := "0", tcr_sequence := "1", application_code := "CP03",
    fields := fieldsOf [
      ⟨"Transaction Code", 1, 2, "UN"⟩,
      ⟨"Transaction Code Qualifier", 3, 1, "UN"⟩,
      ⟨"Transaction Component Sequence Number", 4, 1, "AN"⟩,
      ⟨"Lodging Folio Number", 5, 20, "AN"⟩,
      ⟨"Lodging Check-in Date", 25, 6, "UN"⟩,
      ⟨"Lodging Check-out Date", 31, 6, "UN"⟩,
      ⟨"Lodging Duration", 37, 3, "UN"⟩,
      ⟨"Lodging Rate", 40, 12, "UN"⟩,
      ⟨"Lodging Guest Name", 52, 60, "ANS"⟩,
      ⟨"Reserved", 112, 57, "AN"⟩
    ] }

/-- Transcribed from tc33_definitions.py: `CP03_TCR4` (descriptions omitted; they are diagnostic strings unused by any logic). -/
def CP03_TCR4 : TCRDefinition :=
  { tcr_type := "33", tcr_qualifier := "0", tcr_sequence := "4", application_code := "CP03",
    fields := fieldsOf [
      ⟨"Transaction Code", 1, 2, "UN"⟩,
      ⟨"Transaction Code Qualifier", 3, 1, "UN"⟩,
      ⟨"Transaction Component Sequence Number", 4, 1, "AN"⟩,
      ⟨"Room Tax", 5, 12, "UN"⟩,
      ⟨"Misc Expenses", 17, 12, "UN"⟩,
      ⟨"Food & Beverage", 29, 12, "UN"⟩,
      ⟨"Phone Charges", 41, 12, "UN"⟩,
      ⟨"Incidental Charges", 53, 12, "UN"⟩,
      ⟨"Total Additional Amounts", 65, 12, "UN"⟩,
      ⟨"Reserved", 77, 92, "AN"⟩
    ] }

/-- Transcribed from tc33_definitions.py: `CP04_TCR0` (descriptions omitted; they are diagnostic strings unused by any logic). -/
def CP04_TCR0 : TCRDefinition :=
  { tcr_type := "33", tcr_qualifier := "0", tcr_sequence := "0", application_code := "CP04",
    fields := fieldsOf [
      ⟨"Transaction Code", 1, 2, "UN"⟩,
      ⟨"Transaction Code Qualifier", 3, 1, "UN"⟩,
      ⟨"Transaction Component Sequence Number", 4, 1, "AN"⟩,
      ⟨"Destination Identifier", 5, 6, "UN"⟩,
      ⟨"Source Identifier", 11, 6, "UN"⟩,
      ⟨"TC 33 Application Code", 17, 4, "AN"⟩,
      ⟨"Message Identifier", 21, 15, "AN"⟩,
      ⟨"Airline Code", 36, 3, "AN"⟩,
      ⟨"Ticket Number", 39, 15, "AN"⟩,
      ⟨"Travel Agency Code", 54, 8, "AN"⟩,
      ⟨"Departure Date", 62, 8, "UN"⟩,
      ⟨"Reserved", 70, 99, "AN"⟩
    ] }

/-- Transcribed from tc33_definitions.py: `CP04_TCR1` (descriptions omitted; they are diagnostic strings unused by any logic). -/
def CP04_TCR1 : TCRDefinition :=
  { tcr_type := "33", tcr_qualifier := "0", tcr_sequence := "1", application_code := "CP04",
    fields := fieldsOf [
      ⟨"Transaction Code", 1, 2, "UN"⟩,
      ⟨"Transaction Code Qualifier", 3, 1, "UN"⟩,
      ⟨"Transaction Component Sequence Number", 4, 1, "AN"⟩,
      ⟨"Passenger Name", 5, 30, "ANS"⟩,
      ⟨"Ticket Issue Date", 35, 8, "UN"⟩,
      ⟨"Fare Basis Code", 43, 8, "AN"⟩,
      ⟨"Origin Airport Code", 51, 3, "AN"⟩,
      ⟨"Destination Airport Code", 54, 3, "AN"⟩,
      ⟨"Flight Number", 57, 5, "UN"⟩,
      ⟨"Class of Service", 62, 1, "AN"⟩,
      ⟨"Travel Agency Name", 63, 25, "ANS"⟩,
      ⟨"Reserved", 88, 81, "AN"⟩
    ] }

/-- Transcribed from tc33_definitions.py: `CP05_TCR0` (descriptions omitted; they are diagnostic strings unused by any logic). -/
def CP05_TCR0 : TCRDefinition :=
  { tcr_type := "33", tcr_qualifier := "0", tcr_sequence := "0", application_code := "CP05",
    fields := fieldsOf [
      ⟨"Transaction Code", 1, 2, "UN"⟩,
      ⟨"Transaction Code Qualifier", 3, 1, "UN"⟩,
      ⟨"Transaction Component Sequence Number", 4, 1, "AN"⟩,
      ⟨"Destination Identifier", 5, 6, "UN"⟩,
      ⟨"Source Identifier", 11, 6, "UN"⟩,
      ⟨"TC 33 Application Code", 17, 4, "AN"⟩,
      ⟨"Message Identifier", 21, 15, "AN"⟩,
      ⟨"Rental Agreement Number", 36, 20, "AN"⟩,
      ⟨"Rental Pick-up Date", 56, 8, "UN"⟩,
      ⟨"Rental Return Date", 64, 8, "UN"⟩,
      ⟨"Rental Duration", 72, 3, "UN"⟩,
      ⟨"Reserved", 75, 94, "AN"⟩
    ] }

/-- Transcribed from tc33_definitions.py: `CP06_TCR0` (descriptions omitted; they are diagnostic strings unused by any logic). -/
def CP06_TCR0 : TCRDefinition :=
  { tcr_type := "33", tcr_qualifier := "0", tcr_sequence := "0", application_code := "CP06",
    fields := fieldsOf [
      ⟨"Transaction Code", 1, 2, "UN"⟩,
      ⟨"Transaction Code Qualifier", 3, 1, "UN"⟩,
      ⟨"Transaction Component Sequence Number", 4, 1, "AN"⟩,
      ⟨"Destination Identifier", 5, 6, "UN"⟩,
      ⟨"Source Identifier", 11, 6, "UN"⟩,
      ⟨"TC 33 Application Code", 17, 4, "AN"⟩,
      ⟨"Message Identifier", 21, 15, "AN"⟩,
      ⟨"Invoice Date", 36, 8, "UN"⟩,
      ⟨"Invoice Number", 44, 20, "AN"⟩,
      ⟨"Purchase Order Number", 64, 20, "AN"⟩,
      ⟨"Total Discount Amount", 84, 12, "UN"⟩,
      ⟨"Total Tax Amount", 96, 12, "UN"⟩,
      ⟨"Shipping Cost", 108, 12, "UN"⟩,
      ⟨"Duty Amount", 120, 12, "UN"⟩,
      ⟨"Reserved", 132, 37, "AN"⟩
    ] }

/-- Transcribed from tc33_definitions.py: `CP06_TCR1` (descriptions omitted; they are diagnostic strings unused by any logic). -/
def CP06_TCR1 : TCRDefinition :=
  { tcr_type := "33", tcr_qualifier := "0", tcr_sequence := "1", application_code := "CP06",
    fields := fieldsOf [
      ⟨"Transaction Code", 1, 2, "UN"⟩,
      ⟨"Transaction Code Qualifier", 3, 1, "UN"⟩,
      ⟨"Transaction Component Sequence Number", 4, 1, "AN"⟩,
      ⟨"Line Item Sequence Number", 5, 3, "UN"⟩,
      ⟨"Item Description", 8, 26, "ANS"⟩,
      ⟨"Quantity", 34, 12, "UN"⟩,
      ⟨"Unit Cost", 46, 12, "UN"⟩,
      ⟨"Item Amount", 58, 12, "UN"⟩,
      ⟨"Discount Amount Line Item", 70, 12, "UN"⟩,
      ⟨"Tax Amount Line Item", 82, 12, "UN"⟩,
      ⟨"Product Code", 94, 12, "AN"⟩,
      ⟨"Unit of Measure", 106, 3, "AN"⟩,
      ⟨"Tax Rate", 109, 6, "UN"⟩,
      ⟨"Debit/Credit Indicator Line Item", 115, 1, "AN"⟩,
      ⟨"Reserved", 116, 53, "AN"⟩
    ] }

/-- Transcribed from tc33_definitions.py: `CP07_TCR0` (descriptions omitted; they are diagnostic strings unused by any logic). -/
def CP07_TCR0 : TCRDefinition :=
  { tcr_type := "33", tcr_qualifier := "0", tcr_sequence := "0", application_code := "CP07",
    fields := fieldsOf [
      ⟨"Transaction Code", 1, 2, "UN"⟩,
      ⟨"Transaction Code Qualifier", 3, 1, "UN"⟩,
      ⟨"Transaction Component Sequence Number", 4, 1, "AN"⟩,
      ⟨"Destination Identifier", 5, 6, "UN"⟩,
      ⟨"Source Identifier", 11, 6, "UN"⟩,
      ⟨"TC 33 Application Code", 17, 4, "AN"⟩,
      ⟨"Message Identifier", 21, 15, "AN"⟩,
      ⟨"Installment Plan ID", 36, 2, "AN"⟩,
      ⟨"Number of Installments", 38, 3, "UN"⟩,
      ⟨"Reserved", 41, 128, "AN"⟩
    ] }

/-- Transcribed from tc33_definitions.py: `CP07_TCR8` (descriptions omitted; they are diagnostic strings unused by any logic). -/
def CP07_TCR8 : TCRDefinition :=
  { tcr_type := "33", tcr_qualifier := "0", tcr_sequence := "8", application_code := "CP07",
    fields := fieldsOf [
      ⟨"Transaction Code", 1, 2, "UN"⟩,
      ⟨"Transaction Code Qualifier", 3, 1, "UN"⟩,
      ⟨"Transaction Component Sequence Number", 4, 1, "AN"⟩,
      ⟨"Original Authorization Amount", 5, 12, "UN"⟩,
      ⟨"Original Authorization Currency Code", 17, 3, "AN"⟩,
      ⟨"Original Approval Code", 20, 6, "AN"⟩,
      ⟨"Original Transaction Date", 26, 4, "UN"⟩,
      ⟨"Original Transaction Time", 30, 6, "UN"⟩,
      ⟨"Original Message Identifier", 36, 15, "AN"⟩,
      ⟨"Reserved", 51, 118, "AN"⟩
    ] }

/-- Transcribed from tc33_definitions.py: `CP08_TCR0` (descriptions omitted; they are diagnostic strings unused by any logic). -/
def CP08_TCR0 : TCRDefinition :=
  { tcr_type := "33", tcr_qualifier := "0", tcr_sequence := "0", application_code := "CP08",
    fields := fieldsOf [
      ⟨"Transaction Code", 1, 2, "UN"⟩,
      ⟨"Transaction Code Qualifier", 3, 1, "UN"⟩,
      ⟨"Transaction Component Sequence Number", 4, 1, "AN"⟩,
      ⟨"Destination Identifier", 5, 6, "UN"⟩,
      ⟨"Source Identifier", 11, 6, "UN"⟩,
      ⟨"TC 33 Application Code", 17, 4, "AN"⟩,
      ⟨"Message Identifier", 21, 15, "AN"⟩,
      ⟨"Discretionary Data", 36, 133, "ANS"⟩
    ] }

/-- Transcribed from tc33_definitions.py: `CP09_TCR0` (descriptions omitted; they are diagnostic strings unused by any logic). -/
def CP09_TCR0 : TCRDefinition :=
  { tcr_type := "33", tcr_qualifier := "0", tcr_sequence := "0", application_code := "CP09",
    fields := fieldsOf [
      ⟨"Transaction Code", 1, 2, "UN"⟩,
      ⟨"Transaction Code Qualifier", 3, 1, "UN"⟩,
      ⟨"Transaction Component Sequence Number", 4, 1, "AN"⟩,
      ⟨"Destination Identifier", 5, 6, "UN"⟩,
      ⟨"Source Identifier", 11, 6, "UN"⟩,
      ⟨"TC 33 Application Code", 17, 4, "AN"⟩,
      ⟨"Message Identifier", 21, 15, "AN"⟩,
      ⟨"Reserved", 36, 133, "AN"⟩
    ] }

/-- Transcribed from tc33_definitions.py: `CP09_TCR4` (descriptions omitted; they are diagnostic strings unused by any logic). -/
def CP09_TCR4 : TCRDefinition :=
  { tcr_type := "33", tcr_qualifier := "0", tcr_sequence := "4", application_code := "CP09",
    fields := fieldsOf [
      ⟨"Transaction Code", 1, 2, "UN"⟩,
      ⟨"Transaction Code Qualifier", 3, 1, "UN"⟩,
      ⟨"Transaction Component Sequence Number", 4, 1, "AN"⟩,
      ⟨"Recipient First Name", 5, 40, "ANS"⟩,
      ⟨"Recipient Last Name", 45, 40, "ANS"⟩,
      ⟨"Reserved", 85, 84, "AN"⟩
    ] }

/-- Transcribed from tc33_definitions.py: `CP10_TCR0` (descriptions omitted; they are diagnostic strings unused by any logic). -/
def CP10_TCR0 : TCRDefinition :=
  { tcr_type := "33", tcr_qualifier := "0", tcr_sequence := "0", application_code := "CP10",
    fields := fieldsOf [
      ⟨"Transaction Code", 1, 2, "UN"⟩,
      ⟨"Transaction Code Qualifier", 3, 1, "UN"⟩,
      ⟨"Transaction Component Sequence Number", 4, 1, "AN"⟩,
      ⟨"Destination Identifier", 5, 6, "UN"⟩,
      ⟨"Source Identifier", 11, 6, "UN"⟩,
      ⟨"TC 33 Application Code", 17, 4, "AN"⟩,
      ⟨"Message Identifier", 21, 15, "AN"⟩,
      ⟨"POS Device Type", 36, 2, "AN"⟩,
      ⟨"POS Device Capabilities", 38, 3, "AN"⟩,
      ⟨"Reserved", 41, 128, "AN"⟩
    ] }

/-- Transcribed from tc33_definitions.py: `CP12_TCR0` (descriptions omitted; they are diagnostic strings unused by any logic). -/
def CP12_TCR0 : TCRDefinition :=
  { tcr_type := "33", tcr_qualifier := "0", tcr_sequence := "0", application_code := "CP12",
    fields := fieldsOf [
      ⟨"Transaction Code", 1, 2, "UN"⟩,
      ⟨"Transaction Code Qualifier", 3, 1, "UN"⟩,
      ⟨"Transaction Component Sequence Number", 4, 1, "AN"⟩,
      ⟨"Destination Identifier", 5, 6, "UN"⟩,
      ⟨"Source Identifier", 11, 6, "UN"⟩,
      ⟨"TC 33 Application Code", 17, 4, "AN"⟩,
      ⟨"Message Identifier", 21, 15, "AN"⟩,
      ⟨"Merchant Category Code (MCC)", 36, 4, "AN"⟩,
      ⟨"Merchant SIC Code", 40, 4, "AN"⟩,
      ⟨"Reserved", 44, 125, "AN"⟩
    ] }

/-- Transcribed from tc33_definitions.py: the `TCR_DEFINITIONS` dictionary,
keyed either by an (application code, sequence number) pair or by a bare name. -/
def TCR_DEFINITIONS : List (DefKey × TCRDefinition) := [
  (.pair "HEDR" "0", TCR_HEADER),
  (.pair "TRLR" "0", TCR_TRAILER),
  (.pair "CP01" "0", CP01_TCR0),
  (.pair "CP01" "1", CP01_TCR1),
  (.pair "CP01" "2", CP01_TCR2),
  (.pair "CP01" "3", CP01_TCR3),
  (.pair "CP01" "4", CP01_TCR4),
  (.pair "CP01" "5", CP01_TCR5),
  (.pair "CP01" "6", CP01_TCR6),
  (.pair "CP01" "7", CP01_TCR7),
  (.pair "CP01" "8", CP01_TCR8),
  (.pair "CP01" "9", CP01_TCR9_GENERIC),
  (.pair "CP01" "A", CP01_TCRA),
  (.pair "CP01" "B", CP01_TCRB),
  (.sname "CP01_TCR9_COL", CP01_TCR9_COL),
  (.sname "CP01_TCR9_JPN", CP01_TCR9_JPN),
  (.sname "CP01_TCR9_MEX", CP01_TCR9_MEX),
  (.pair "CP02" "0", CP02_TCR0),
  (.pair "CP02" "1", CP02_TCR1),
  (.pair "CP03" "0", CP03_TCR0),
  (.pair "CP03" "1", CP03_TCR1),
  (.pair "CP03" "4", CP03_TCR4),
  (.pair "CP04" "0", CP04_TCR0),
  (.pair "CP04" "1", CP04_TCR1),
  (.pair "CP05" "0", CP05_TCR0),
  (.pair "CP06" "0", CP06_TCR0),
  (.pair "CP06" "1", CP06_TCR1),
  (.pair "CP07" "0", CP07_TCR0),
  (.pair "CP07" "8", CP07_TCR8),
  (.pair "CP08" "0", CP08_TCR0),
  (.pair "CP09" "0", CP09_TCR0),
  (.pair "CP09" "4", CP09_TCR4),
  (.pair "CP10" "0", CP10_TCR0),
  (.pair "CP12" "0", CP12_TCR0)
]

/-- `TCR_LOOKUP_MAP` from services.py lines 26-30: the tuple-keyed entries of
`TCR_DEFINITIONS`, re-keyed by `(application_code, tcr_sequence)`.  The filter
`not key[0].endswith('_TCR9')` drops nothing, because no tuple key's first
component ends in `_TCR9`; the name-keyed country variants are excluded by the
`isinstance(key, tuple)` test.  In particular `("CP01", "9")` maps to
`CP01_TCR9_GENERIC`. -/
def TCR_LOOKUP_MAP : List ((String × String) × TCRDefinition) :=
  TCR_DEFINITIONS.filterMap (fun p =>
    match p.1 with
    | .pair a _ =>
      if pyEndsWith a "_TCR9" then none
      else some ((p.2.application_code, p.2.tcr_sequence), p.2)
    | .sname _ => none)

/-- The per-record dict `tcr_info` built in services.py lines 159-167.
`tcr_definition_name` holds `tcr_def.__class__.__name__`, which is always
the literal `"TCRDefinition"`, because every schema object is a plain
instance of that one class. -/
structure TcrInfo where
  tcr_definition_name : String
  tcr_type_code : String
  tcr_qualifier : String
  tcr_sequence : String
  application_code : String
  parsed_fields : List (String × PyVal)
  raw_line : String
deriving DecidableEq, Repr

/-- The assembler's mutable variables in `parse_tc33_file` (services.py
lines 48-54).  `transactions` is the insertion-ordered
`defaultdict(list)` keyed by message identifier. -/
structure ParseState where
  header : Option TcrInfo
  trailer : Option TcrInfo
  transactions : List (PyVal × List TcrInfo)
  current_message_id : Option PyVal
  current_transaction_tcr_cache : List TcrInfo
  active_transaction_cp_code : Option String
deriving DecidableEq, Repr

/-- The initial assembler state (services.py lines 48-54). -/
def initState : ParseState :=
  { header := none, trailer := none, transactions := [],
    current_message_id := none, current_transaction_tcr_cache := [],
    active_transaction_cp_code := none }

/-- `transactions[k].append(r)` on the insertion-ordered `defaultdict(list)`:
append to the existing bucket, or create a new singleton bucket at the end. -/
def appendTo (txs : List (PyVal × List TcrInfo)) (k : PyVal) (r : TcrInfo) :
    List (PyVal × List TcrInfo) :=
  match txs with
  | [] => [(k, [r])]
  | (k', l) :: rest =>
    if k' = k then (k', l ++ [r]) :: rest else (k', l) :: appendTo rest k r

/-- Truthiness of the `current_message_id` variable (`None` is falsy, and so
is a falsy stored value, matching `if current_message_id:`). -/
def truthyOptVal : Option PyVal → Bool
  | none => false
  | some v => v.truthy

/-- Truthiness of the `active_transaction_cp_code` variable. -/
def truthyOptStr : Option String → Bool
  | none => false
  | some s => s ≠ ""

/-- The field-extraction loop of services.py lines 146-147: decode every
declared field, in declaration order.  An `.error` models an exception
escaping the loop into the surrounding `try`. -/
def decodeFields (tcr_def : TCRDefinition) (raw_line_padded : String) :
    Except String (List (String × PyVal)) :=
  go tcr_def.fields
where
  go : List (String × Field) → Except String (List (String × PyVal))
    | [] => .ok []
    | p :: rest =>
      match get_field_value tcr_def raw_line_padded p.1 with
      | .error e => .error e
      | .ok v =>
        match go rest with
        | .error e => .error e
        | .ok out => .ok ((p.1, v) :: out)

/-- The `tcr_info` record assembled in services.py lines 159-167. -/
def tcrInfoOf (tcr_def : TCRDefinition) (tx_code tx_qualifier seq_num : String)
    (parsed_fields : List (String × PyVal)) (raw_line_stripped : String) : TcrInfo :=
  { tcr_definition_name := "TCRDefinition"
    tcr_type_code := tx_code
    tcr_qualifier := tx_qualifier
    tcr_sequence := seq_num
    application_code := tcr_def.application_code
    parsed_fields := parsed_fields
    raw_line := raw_line_stripped }

/-- The `seq_num == '0'` branch of services.py lines 73-107: look up the
line's own application group and update the transaction context.  Returns the
updated state and the resolved schema; `none` means the group was
unrecognized, and services.py then falls through to the decode phase with
`tcr_def = None` (whose `AttributeError` is caught there). -/
def resolveSeq0 (s : ParseState) (raw_line_padded current_line_app_code : String) :
    ParseState × Option TCRDefinition :=
  match dictGet (current_line_app_code, "0") TCR_LOOKUP_MAP with
  | none => (s, none)
  | some tcr_def =>
    if (dictGet "Message Identifier" tcr_def.fields).isSome then
      match get_field_value tcr_def raw_line_padded "Message Identifier" with
      | .ok msg_id =>
        if msg_id.truthy then
          if s.current_message_id = none ∨ some msg_id ≠ s.current_message_id then
            ({ s with current_message_id := some msg_id,
                      current_transaction_tcr_cache := [],
                      active_transaction_cp_code := some current_line_app_code },
             some tcr_def)
          else if pyStartsWith current_line_app_code "CP" then
            ({ s with active_transaction_cp_code := some current_line_app_code },
             some tcr_def)
          else (s, some tcr_def)
        else
          ({ s with current_message_id := none,
                    current_transaction_tcr_cache := [],
                    active_transaction_cp_code := none }, some tcr_def)
      | .error _ =>
        ({ s with current_message_id := none,
                  current_transaction_tcr_cache := [],
                  active_transaction_cp_code := none }, some tcr_def)
    else
      ({ s with current_message_id := none,
                current_transaction_tcr_cache := [],
                active_transaction_cp_code := none }, some tcr_def)

/-- The cache scan of services.py lines 114-120: find the first cached record
named `CP01_TCR3` carrying a truthy "Ship to Country Code", and return that
value stripped and uppercased.  A falsy country value is assigned but can
never equal one of the compared codes, so only the first truthy value affects
the outcome.  `.error` models the `AttributeError` of calling `.strip()` on a
non-string stored value; this point is unreachable (see `processLine_ok`). -/
def scanShipToCountry : List TcrInfo → Except String (Option String)
  | [] => .ok none
  | cached_tcr :: rest =>
    if cached_tcr.tcr_definition_name = "CP01_TCR3" then
      match dictGet "Ship to Country Code" cached_tcr.parsed_fields with
      | some v =>
        if v.truthy then
          match v with
          | .str c => .ok (some (pyUpper (pyStrip c)))
          | _ => .error "AttributeError"
        else scanShipToCountry rest
      | none => scanShipToCountry rest
    else scanShipToCountry rest

/-- The decode-and-store phase of services.py lines 143-182.  A `None` schema
(`AttributeError` on `tcr_def.fields`) or any exception while decoding is
caught by the `try`/`except` and the line is skipped (`continue`). -/
def decodeAndRoute (s : ParseState) (tcr_def? : Option TCRDefinition)
    (tx_code tx_qualifier seq_num raw_line_padded raw_line_stripped : String) :
    ParseState :=
  match tcr_def? with
  | none => s
  | some tcr_def =>
    match decodeFields tcr_def raw_line_padded with
    | .error _ => s
    | .ok parsed_fields =>
      let tcr_info := tcrInfoOf tcr_def tx_code tx_qualifier seq_num parsed_fields raw_line_stripped
      if tcr_def = TCR_HEADER then { s with header := some tcr_info }
      else if tcr_def = TCR_TRAILER then { s with trailer := some tcr_info }
      else
        match s.current_message_id with
        | some mid =>
          if mid.truthy then
            { s with transactions := appendTo s.transactions mid tcr_info,
                     current_transaction_tcr_cache :=
                       s.current_transaction_tcr_cache ++ [tcr_info] }
          else s
        | none => s

/-- One iteration of the main loop of `parse_tc33_file` (services.py lines
58-182).  The `.error` case is the sole uncaught exception point, inside the
contextual-override scan (see `scanShipToCountry`). -/
def processLine (s : ParseState) (raw_line : String) : Except String ParseState :=
  let raw_line_padded := ljust raw_line 168
  let raw_line_stripped := pyStrip raw_line_padded
  if raw_line_stripped = "" then .ok s
  else
    let tx_code := pyStrip (pySlice raw_line_padded 0 2)
    let tx_qualifier := pyStrip (pySlice raw_line_padded 2 3)
    let seq_num := pyStrip (pySlice raw_line_padded 3 4)
    let current_line_app_code := pyStrip (pySlice raw_line_padded 16 20)
    if seq_num = "0" then
      let r := resolveSeq0 s raw_line_padded current_line_app_code
      .ok (decodeAndRoute r.1 r.2 tx_code tx_qualifier seq_num raw_line_padded raw_line_stripped)
    else if truthyOptVal s.current_message_id && truthyOptStr s.active_transaction_cp_code then
      let acp := s.active_transaction_cp_code.getD ""
      match dictGet (acp, seq_num) TCR_LOOKUP_MAP with
      | some tcr_def =>
        .ok (decodeAndRoute s (some tcr_def) tx_code tx_qualifier seq_num raw_line_padded raw_line_stripped)
      | none =>
        if seq_num = "9" ∧ acp = "CP01" then
          match scanShipToCountry s.current_transaction_tcr_cache with
          | .error e => .error e
          | .ok country_code =>
            let tcr_def? :=
              if country_code = some "COL" then dictGet (DefKey.sname "CP01_TCR9_COL") TCR_DEFINITIONS
              else if country_code = some "JPN" then dictGet (DefKey.sname "CP01_TCR9_JPN") TCR_DEFINITIONS
              else if country_code = some "MEX" then dictGet (DefKey.sname "CP01_TCR9_MEX") TCR_DEFINITIONS
              else some CP01_TCR9_GENERIC
            match tcr_def? with
            | some tcr_def =>
              .ok (decodeAndRoute s (some tcr_def) tx_code tx_qualifier seq_num raw_line_padded raw_line_stripped)
            | none => .ok s
        else .ok s
    else .ok s

/-- Python `str.splitlines()` restricted to the common line breaks `\n`,
`\r\n` and `\r` (exotic Unicode breaks are not modelled); a trailing newline
produces no trailing empty line. -/
def splitlinesAux : List Char → List Char → List String
  | [], acc => if acc.isEmpty then [] else [String.mk acc.reverse]
  | '\r' :: '\n' :: rest, acc => String.mk acc.reverse :: splitlinesAux rest []
  | '\r' :: rest, acc => String.mk acc.reverse :: splitlinesAux rest []
  | '\n' :: rest, acc => String.mk acc.reverse :: splitlinesAux rest []
  | c :: rest, acc => splitlinesAux rest (c :: acc)

/-- Python `file_content.splitlines()`. -/
def splitlines (s : String) : List String := splitlinesAux s.data []

/-- The main loop: process every line in file order; an uncaught exception
aborts the whole parse. -/
def processLines (s : ParseState) : List String → Except String ParseState
  | [] => .ok s
  | l :: ls =>
    match processLine s l with
    | .error e => .error e
    | .ok s' => processLines s' ls

/-- The dictionary returned by `parse_tc33_file` (services.py lines 187-191). -/
structure ParseResult where
  header : Option TcrInfo
  trailer : Option TcrInfo
  transactions : List (PyVal × List TcrInfo)
deriving DecidableEq, Repr

/-- `parse_tc33_file` from services.py lines 32-191: split the content into
lines, run the assembler over them, and return header, trailer and the
per-message-identifier transaction buckets. -/
def parse_tc33_file (file_content : String) : Except String ParseResult :=
  match processLines initState (splitlines file_content) with
  | .error e => .error e
  | .ok s => .ok { header := s.header, trailer := s.trailer, transactions := s.transactions }

/-! ### Specification-side abbreviations shared by the claims -/

/-- The exact substring `get_field_value` converts: the line padded with
spaces up to the field's end offset, sliced at the field's byte range. -/
def slicedContent (f : Field) (line : String) : String :=
  pySlice (if line.length < f.python_end then ljust line f.python_end else line)
    f.python_start f.python_end

/-- The field dictionary decoded for a (padded) line against schema `d`,
when no field raises (which `decodeFields_ok` shows is always). -/
def fieldsDecodedBy (d : TCRDefinition) (raw_line : String) : List (String × PyVal) :=
  (decodeFields d (ljust raw_line 168)).toOption.getD []

/-- The full record the assembler emits for a line resolved against schema
`d`, given the line's positional tokens. -/
def recordOf (d : TCRDefinition) (tx qual seq raw_line : String) : TcrInfo :=
  tcrInfoOf d tx qual seq (fieldsDecodedBy d raw_line) (pyStrip (ljust raw_line 168))

/-- A representative zero-sequence "CP01" record with Message Identifier
`MSG000000000001` in columns 21-35. -/
def line0_CP01 : String := "3300" ++ "123456" ++ "654321" ++ "CP01" ++ "MSG000000000001"

/-- A representative sequence-'1' "CP01" record. -/
def line1_CP01 : String := "3301" ++ "123456" ++ "654321" ++ "CP01"

/-- A representative sequence-'9' "CP01" record. -/
def line9_CP01 : String := "3309" ++ "123456" ++ "654321" ++ "CP01"

/-- A sequence-'3' "CP01" record whose "Ship to Country Code"
(columns 5-7) is `COL`. -/
def line3_COL : String := "3303" ++ "COL"

/-- The 3-line end-to-end scenario file of the design document. -/
def c8_content : String := line0_CP01 ++ "\n" ++ line1_CP01 ++ "\n" ++ line9_CP01

/-- A 3-line file whose transaction caches a TCR-3 record with Ship to
Country Code `COL` before a sequence-'9' line arrives. -/
def c1_content : String := line0_CP01 ++ "\n" ++ line3_COL ++ "\n" ++ line9_CP01

end TC33

deriving instance DecidableEq for Except

namespace TC33

/-! ### Support lemmas -/

theorem dictGet_mem {α β : Type} [DecidableEq α] {l : List (α × β)} {k : α} {v : β}
    (h : dictGet k l = some v) : (k, v) ∈ l := by
  induction l with
  | nil => simp [dictGet] at h
  | cons p rest ih =>
    obtain ⟨k', v'⟩ := p
    rw [dictGet] at h
    split at h
    · next heq =>
      injection h with h
      subst heq; subst h
      exact List.mem_cons_self _ _
    · exact List.mem_cons_of_mem _ (ih h)

theorem dictGet_isSome_of_mem {α β : Type} [DecidableEq α] {l : List (α × β)} {k : α} {v : β}
    (h : (k, v) ∈ l) : (dictGet k l).isSome := by
  induction l with
  | nil => simp at h
  | cons p rest ih =>
    obtain ⟨k', v'⟩ := p
    by_cases hk : k' = k
    · simp [dictGet, hk]
    · simp only [dictGet, if_neg hk]
      rcases List.mem_cons.mp h with h | h
      · exact absurd (congrArg Prod.fst h).symm hk
      · exact ih h

theorem get_field_value_eq {d : TCRDefinition} {field_name : String} {f : Field} (line : String)
    (hf : dictGet field_name d.fields = some f) :
    get_field_value d line field_name = .ok (decodeValue f.data_format (slicedContent f line)) := by
  unfold get_field_value slicedContent
  rw [hf]

theorem get_field_value_ok_of_isSome {d : TCRDefinition} {field_name : String} (line : String)
    (hf : (dictGet field_name d.fields).isSome) :
    ∃ v, get_field_value d line field_name = .ok v := by
  obtain ⟨f, hf⟩ := Option.isSome_iff_exists.mp hf
  exact ⟨_, get_field_value_eq line hf⟩

theorem decodeFields_go_ok (d : TCRDefinition) (line : String) (l : List (String × Field))
    (h : ∀ p ∈ l, (dictGet p.1 d.fields).isSome) :
    ∃ pf, decodeFields.go d line l = .ok pf := by
  induction l with
  | nil => exact ⟨[], rfl⟩
  | cons p rest ih =>
    obtain ⟨v, hv⟩ := get_field_value_ok_of_isSome line (h p (List.mem_cons_self _ _))
    obtain ⟨pf, hpf⟩ := ih (fun q hq => h q (List.mem_cons_of_mem _ hq))
    exact ⟨(p.1, v) :: pf, by unfold decodeFields.go; rw [hv, hpf]⟩

/-- Decoding every declared field of a schema never raises: each looked-up
name comes from the schema's own field dictionary. -/
theorem decodeFields_ok (d : TCRDefinition) (line : String) :
    ∃ pf, decodeFields d line = .ok pf :=
  decodeFields_go_ok d line d.fields (fun p hp =>
    dictGet_isSome_of_mem (v := p.2) (by simpa using hp))

/-! ### Claims about the schema registry and the end-to-end scenarios -/

/-- C2: the design document claims every field's byte range stays within the
fixed record width of 168.  The code violates this at exactly one field:
`CP02_TCR0` still carries the original "Issuer Application Data" descriptor
(start 148, length 32), whose exclusive end offset is 179, alongside the
shortened "(part 1)" descriptor the inline comment says corrected it.  Every
other field of every schema satisfies `length > 0` and `python_end ≤ 168`,
and `length > 0` holds for the rogue field as well. -/
theorem claim_C2_violation :
    dictGet "Issuer Application Data" CP02_TCR0.fields =
      some { name := "Issuer Application Data", start := 148, length := 32, data_format := "DX" } ∧
    ({ name := "Issuer Application Data", start := 148, length := 32, data_format := "DX" } : Field).python_end = 179 ∧
    ∀ p ∈ TCR_DEFINITIONS, ∀ q ∈ p.2.fields,
      0 < q.2.length ∧
        (q.2.python_end ≤ 168 ∨ (p.2 = CP02_TCR0 ∧ q.2.name = "Issuer Application Data")) := by
  decide

set_option maxRecDepth 40000 in
/-- C1: the design document claims that for an active "CP01" group and a
sequence-'9' line, a cached TCR-3 record whose Ship to Country Code is "COL"
selects the Colombia variant schema `CP01_TCR9_COL`.  The code does not: the
primary lookup key `("CP01", "9")` is present in `TCR_LOOKUP_MAP` (bound to
`CP01_TCR9_GENERIC`), so the contextual-override branch guarded by
`tcr_def is None` never runs, and the sequence-'9' line of `c1_content` is
decoded against the generic schema even though the transaction's cache holds
a TCR-3 record that decoded Ship to Country Code "COL". -/
theorem claim_C1_code_divergence :
    dictGet ("CP01", "9") TCR_LOOKUP_MAP = some CP01_TCR9_GENERIC ∧
    parse_tc33_file c1_content = Except.ok
      { header := none, trailer := none,
        transactions := [(.str "MSG000000000001",
          [recordOf CP01_TCR0 "33" "0" "0" line0_CP01,
           recordOf CP01_TCR3 "33" "0" "3" line3_COL,
           recordOf CP01_TCR9_GENERIC "33" "0" "9" line9_CP01])] } ∧
    dictGet "Ship to Country Code" (recordOf CP01_TCR3 "33" "0" "3" line3_COL).parsed_fields
      = some (.str "COL") ∧
    CP01_TCR9_GENERIC ≠ CP01_TCR9_COL := by
  decide

set_option maxRecDepth 40000 in
/-- C8: the 3-line end-to-end scenario.  Parsing one zero-sequence "CP01"
record with Message Identifier `MSG000000000001`, one sequence-'1' "CP01"
record and one sequence-'9' "CP01" record (no TCR-3 present) yields no header,
no trailer, and exactly one transaction bucket keyed by that identifier
holding the three decoded records in file order, the third decoded against
`CP01_TCR9_GENERIC`. -/
theorem claim_C8_scenario :
    parse_tc33_file c8_content = Except.ok
      { header := none, trailer := none,
        transactions := [(.str "MSG000000000001",
          [recordOf CP01_TCR0 "33" "0" "0" line0_CP01,
           recordOf CP01_TCR1 "33" "0" "1" line1_CP01,
           recordOf CP01_TCR9_GENERIC "33" "0" "9" line9_CP01])] } := by
  decide

/-! ### Claims about the field decoder -/

theorem pyStrip_of_all_space {s : String} (h : ∀ c ∈ s.data, c = ' ') : pyStrip s = "" := by
  have hnil : ∀ l : List Char, (∀ c ∈ l, c = ' ') → l.dropWhile isPySpace = [] := by
    intro l hl
    induction l with
    | nil => rfl
    | cons c rest ih =>
      have hc : c = ' ' := hl c (List.mem_cons_self _ _)
      subst hc
      rw [List.dropWhile_cons_of_pos (by decide)]
      exact ih (fun c hc => hl c (List.mem_cons_of_mem _ hc))
  unfold pyStrip
  rw [hnil s.data h]
  rfl

theorem decodeValue_strip_empty {fmt : String} (value : String)
    (hfmt : fmt = "UN" ∨ fmt = "N") (h : pyStrip value = "") :
    decodeValue fmt value = .int 0 := by
  unfold decodeValue
  rw [if_pos hfmt, h]
  rfl

theorem decodeValue_float_12_5 {fmt : String} (hfmt : fmt = "UN" ∨ fmt = "N") :
    decodeValue fmt "12.5" = .real ((25 : Rat) / 2) := by
  have hv : ((12 : Nat) : Rat) + ((5 : Nat) : Rat) / (10 : Rat) ^ (1 : Nat) = (25 : Rat) / 2 := by
    norm_num
  rcases hfmt with h | h <;> subst h
  · calc decodeValue "UN" "12.5"
        = .real (((12 : Nat) : Rat) + ((5 : Nat) : Rat) / (10 : Rat) ^ (1 : Nat)) := rfl
      _ = .real ((25 : Rat) / 2) := by rw [hv]
  · calc decodeValue "N" "12.5"
        = .real (((12 : Nat) : Rat) + ((5 : Nat) : Rat) / (10 : Rat) ^ (1 : Nat)) := rfl
      _ = .real ((25 : Rat) / 2) := by rw [hv]

/-- C5: numeric field decoding ('UN'/'N'): an all-space or empty slice yields
integer 0; `"00012"` yields integer 12; `"12.5"` yields the real number 12.5;
non-numeric text such as `"ABCDE"` yields integer 0, and no case raises. -/
theorem claim_C5_numeric (d : TCRDefinition) (line field_name : String) (f : Field)
    (hf : dictGet field_name d.fields = some f)
    (hfmt : f.data_format = "UN" ∨ f.data_format = "N") :
    ((∀ c ∈ (slicedContent f line).data, c = ' ') →
        get_field_value d line field_name = .ok (.int 0)) ∧
    (slicedContent f line = "00012" →
        get_field_value d line field_name = .ok (.int 12)) ∧
    (slicedContent f line = "12.5" →
        get_field_value d line field_name = .ok (.real (25 / 2 : Rat))) ∧
    (slicedContent f line = "ABCDE" →
        get_field_value d line field_name = .ok (.int 0)) := by
  rw [get_field_value_eq line hf]
  refine ⟨fun h => ?_, fun h => ?_, fun h => ?_, fun h => ?_⟩
  · rw [decodeValue_strip_empty _ hfmt (pyStrip_of_all_space h)]
  · rw [h]; rcases hfmt with h' | h' <;> rw [h'] <;> decide
  · rw [h, decodeValue_float_12_5 hfmt]
  · rw [h]; rcases hfmt with h' | h' <;> rw [h'] <;> decide

/-- A line whose columns 57-61 hold `00012`, matching the "Flight Number"
field of `CP04_TCR1` (a 'UN' field of length 5). -/
def w5_line : String := String.mk (List.replicate 56 ' ') ++ "00012"

/-- Witness for C5 at the concrete schema `CP04_TCR1`, field "Flight Number"
and a line slicing to `00012`. -/
theorem claim_C5_numeric_witness :
    ((∀ c ∈ (slicedContent ⟨"Flight Number", 57, 5, "UN"⟩ w5_line).data, c = ' ') →
        get_field_value CP04_TCR1 w5_line "Flight Number" = .ok (.int 0)) ∧
    (slicedContent ⟨"Flight Number", 57, 5, "UN"⟩ w5_line = "00012" →
        get_field_value CP04_TCR1 w5_line "Flight Number" = .ok (.int 12)) ∧
    (slicedContent ⟨"Flight Number", 57, 5, "UN"⟩ w5_line = "12.5" →
        get_field_value CP04_TCR1 w5_line "Flight Number" = .ok (.real (25 / 2 : Rat))) ∧
    (slicedContent ⟨"Flight Number", 57, 5, "UN"⟩ w5_line = "ABCDE" →
        get_field_value CP04_TCR1 w5_line "Flight Number" = .ok (.int 0)) :=
  claim_C5_numeric CP04_TCR1 w5_line "Flight Number" ⟨"Flight Number", 57, 5, "UN"⟩
    (by decide) (Or.inl rfl)

theorem ljust_length (s : String) (n : Nat) : (ljust s n).length = max s.length n := by
  cases s with
  | mk data =>
    have hd : (String.mk data).length = data.length := rfl
    have h : (ljust (String.mk data) n).length = data.length + (n - data.length) := by
      show (data ++ List.replicate (n - data.length) ' ').length = _
      rw [List.length_append, List.length_replicate]
    rw [h, hd]
    omega

theorem ljust_of_le {s : String} {n : Nat} (h : n ≤ s.length) : ljust s n = s := by
  unfold ljust
  rw [(by omega : n - s.length = 0)]
  cases s with
  | mk data =>
    show String.mk (data ++ []) = _
    rw [List.append_nil]

theorem slicedContent_ljust (f : Field) (line : String) :
    slicedContent f (ljust line f.python_end) = slicedContent f line := by
  unfold slicedContent
  by_cases h : line.length < f.python_end
  · rw [if_pos h]
    have hl : (ljust line f.python_end).length = f.python_end := by
      rw [ljust_length]; omega
    rw [if_neg (by omega)]
  · have he : ljust line f.python_end = line := ljust_of_le (by omega)
    rw [he]
    simp only [if_neg h]

/-- C9: for any line (however short) and any field name defined on the
schema, `get_field_value` returns a value and never raises, and its result is
the same as on the line right-padded with spaces up to the field's end
offset. -/
theorem claim_C9_total (d : TCRDefinition) (line field_name : String) (f : Field)
    (hf : dictGet field_name d.fields = some f) :
    get_field_value d line field_name = .ok (decodeValue f.data_format (slicedContent f line)) ∧
    get_field_value d line field_name = get_field_value d (ljust line f.python_end) field_name := by
  refine ⟨get_field_value_eq line hf, ?_⟩
  rw [get_field_value_eq line hf, get_field_value_eq (ljust line f.python_end) hf,
    slicedContent_ljust]

/-- Witness for C9 at `CP01_TCR0`'s "Message Identifier" field and the 2-character
line `"33"` (far shorter than the field's end offset 35). -/
theorem claim_C9_total_witness :
    get_field_value CP01_TCR0 "33" "Message Identifier" =
      .ok (decodeValue ("AN" : String) (slicedContent ⟨"Message Identifier", 21, 15, "AN"⟩ "33")) ∧
    get_field_value CP01_TCR0 "33" "Message Identifier" =
      get_field_value CP01_TCR0 (ljust "33" (⟨"Message Identifier", 21, 15, "AN"⟩ : Field).python_end)
        "Message Identifier" :=
  claim_C9_total CP01_TCR0 "33" "Message Identifier" ⟨"Message Identifier", 21, 15, "AN"⟩ (by decide)

/-! ### Claims about the assembler's line-level transitions -/

theorem processLine_seq0 (s : ParseState) (raw_line : String)
    (hblank : pyStrip (ljust raw_line 168) ≠ "")
    (hseq : pyStrip (pySlice (ljust raw_line 168) 3 4) = "0") :
    processLine s raw_line = .ok
      (decodeAndRoute
        (resolveSeq0 s (ljust raw_line 168) (pyStrip (pySlice (ljust raw_line 168) 16 20))).1
        (resolveSeq0 s (ljust raw_line 168) (pyStrip (pySlice (ljust raw_line 168) 16 20))).2
        (pyStrip (pySlice (ljust raw_line 168) 0 2))
        (pyStrip (pySlice (ljust raw_line 168) 2 3))
        "0"
        (ljust raw_line 168)
        (pyStrip (ljust raw_line 168))) := by
  unfold processLine
  rw [if_neg hblank, hseq, if_pos rfl]

/-- C7: a sequence-tag-'0' line whose application group code (columns 17-20)
has no entry in the registry's primary index leaves the whole assembler state
(outputs included) unchanged: parsing just continues with the next line.
(In the code the skip happens via the caught `AttributeError` on
`tcr_def.fields` with `tcr_def = None`.) -/
theorem claim_C7_unrecognized (s : ParseState) (raw_line : String)
    (hblank : pyStrip (ljust raw_line 168) ≠ "")
    (hseq : pyStrip (pySlice (ljust raw_line 168) 3 4) = "0")
    (hmiss : dictGet (pyStrip (pySlice (ljust raw_line 168) 16 20), "0") TCR_LOOKUP_MAP = none) :
    processLine s raw_line = .ok s := by
  rw [processLine_seq0 s raw_line hblank hseq]
  unfold resolveSeq0
  rw [hmiss]
  rfl

/-- A zero-sequence line with an application group code `ZZZZ` absent from
the registry. -/
def w7_line : String := "3300" ++ "123456" ++ "654321" ++ "ZZZZ"

set_option maxRecDepth 40000 in
/-- Witness for C7 at the initial state and a concrete unrecognized line. -/
theorem claim_C7_unrecognized_witness :
    processLine initState w7_line = .ok initState :=
  claim_C7_unrecognized initState w7_line (by decide) (by decide) (by decide)

theorem resolveSeq0_nomi {s : ParseState} {line appc : String} {d : TCRDefinition}
    (hfound : dictGet (appc, "0") TCR_LOOKUP_MAP = some d)
    (hnomi : dictGet "Message Identifier" d.fields = none) :
    resolveSeq0 s line appc =
      ({ s with current_message_id := none, current_transaction_tcr_cache := [],
                active_transaction_cp_code := none }, some d) := by
  unfold resolveSeq0
  rw [hfound]
  simp only [hnomi, Option.isSome_none]
  rfl

/-- C4: a zero-sequence line resolving to a schema with no Message Identifier
field is one of the header/trailer schemas; processing it resets the whole
transaction context, stores the decoded record in the header slot (`HEDR`)
or trailer slot (`TRLR`) — overwriting whatever was there, so the last such
record in file order wins — and leaves `transactions` untouched, so such a
record is never in any transaction bucket. -/
theorem claim_C4_header_trailer (s : ParseState) (raw_line : String) (d : TCRDefinition)
    (hblank : pyStrip (ljust raw_line 168) ≠ "")
    (hseq : pyStrip (pySlice (ljust raw_line 168) 3 4) = "0")
    (hfound : dictGet (pyStrip (pySlice (ljust raw_line 168) 16 20), "0") TCR_LOOKUP_MAP = some d)
    (hnomi : dictGet "Message Identifier" d.fields = none) :
    ∃ pf, decodeFields d (ljust raw_line 168) = .ok pf ∧
      ((d = TCR_HEADER ∧ processLine s raw_line = .ok
          { header := some (tcrInfoOf d (pyStrip (pySlice (ljust raw_line 168) 0 2))
              (pyStrip (pySlice (ljust raw_line 168) 2 3)) "0" pf (pyStrip (ljust raw_line 168))),
            trailer := s.trailer, transactions := s.transactions,
            current_message_id := none, current_transaction_tcr_cache := [],
            active_transaction_cp_code := none }) ∨
       (d = TCR_TRAILER ∧ processLine s raw_line = .ok
          { header := s.header,
            trailer := some (tcrInfoOf d (pyStrip (pySlice (ljust raw_line 168) 0 2))
              (pyStrip (pySlice (ljust raw_line 168) 2 3)) "0" pf (pyStrip (ljust raw_line 168))),
            transactions := s.transactions,
            current_message_id := none, current_transaction_tcr_cache := [],
            active_transaction_cp_code := none })) := by
  obtain ⟨pf, hpf⟩ := decodeFields_ok d (ljust raw_line 168)
  refine ⟨pf, hpf, ?_⟩
  have hht : d = TCR_HEADER ∨ d = TCR_TRAILER := by
    have hall : ∀ p ∈ TCR_LOOKUP_MAP, p.1.2 = "0" →
        dictGet "Message Identifier" p.2.fields = none →
        p.2 = TCR_HEADER ∨ p.2 = TCR_TRAILER := by decide
    exact hall _ (dictGet_mem hfound) rfl hnomi
  rw [processLine_seq0 s raw_line hblank hseq,
    resolveSeq0_nomi hfound hnomi]
  rcases hht with h | h
  · subst h
    refine Or.inl ⟨rfl, ?_⟩
    unfold decodeAndRoute
    try dsimp only
    rw [hpf]
    try dsimp only
    rw [if_pos rfl]
  · subst h
    refine Or.inr ⟨rfl, ?_⟩
    unfold decodeAndRoute
    try dsimp only
    rw [hpf]
    try dsimp only
    rw [if_neg (by decide), if_pos rfl]

/-- A file-header line: zero-sequence with application group `HEDR`. -/
def hedr_line : String := "3300" ++ "123456" ++ "654321" ++ "HEDR" ++ "0001" ++ "20240101"

set_option maxRecDepth 40000 in
/-- Witness for C4 at the initial state and a concrete `HEDR` line. -/
theorem claim_C4_header_trailer_witness :
    ∃ pf, decodeFields TCR_HEADER (ljust hedr_line 168) = .ok pf ∧
      ((TCR_HEADER = TCR_HEADER ∧ processLine initState hedr_line = .ok
          { header := some (tcrInfoOf TCR_HEADER (pyStrip (pySlice (ljust hedr_line 168) 0 2))
              (pyStrip (pySlice (ljust hedr_line 168) 2 3)) "0" pf (pyStrip (ljust hedr_line 168))),
            trailer := initState.trailer, transactions := initState.transactions,
            current_message_id := none, current_transaction_tcr_cache := [],
            active_transaction_cp_code := none }) ∨
       (TCR_HEADER = TCR_TRAILER ∧ processLine initState hedr_line = .ok
          { header := initState.header,
            trailer := some (tcrInfoOf TCR_HEADER (pyStrip (pySlice (ljust hedr_line 168) 0 2))
              (pyStrip (pySlice (ljust hedr_line 168) 2 3)) "0" pf (pyStrip (ljust hedr_line 168))),
            transactions := initState.transactions,
            current_message_id := none, current_transaction_tcr_cache := [],
            active_transaction_cp_code := none })) :=
  claim_C4_header_trailer initState hedr_line TCR_HEADER (by decide) (by decide) (by decide) (by decide)

theorem resolveSeq0_same_mid {s : ParseState} {line appc : String} {d : TCRDefinition} {mid : PyVal}
    (hfound : dictGet (appc, "0") TCR_LOOKUP_MAP = some d)
    (hmid : get_field_value d line "Message Identifier" = .ok mid)
    (htruthy : mid.truthy = true)
    (hcur : s.current_message_id = some mid)
    (hcp : pyStartsWith appc "CP" = true) :
    resolveSeq0 s line appc = ({ s with active_transaction_cp_code := some appc }, some d) := by
  have hmi : (dictGet "Message Identifier" d.fields).isSome = true := by
    unfold get_field_value at hmid
    cases h : dictGet "Message Identifier" d.fields with
    | none => rw [h] at hmid; exact absurd hmid (by simp)
    | some f => rfl
  obtain ⟨sh, st, stx, smid, sc, sa⟩ := s
  simp only [ParseState.current_message_id] at hcur
  subst hcur
  unfold resolveSeq0
  rw [hfound]
  try dsimp only
  rw [hmi, if_pos rfl, hmid]
  try dsimp only
  rw [htruthy, if_pos rfl]
  rw [if_neg (by simp), hcp, if_pos rfl]

/-- C3: a zero-sequence line whose schema carries a Message Identifier, whose
decoded identifier is truthy and equal to the active one, and whose group
code starts with "CP", keeps the same transaction: the message id, the cache
contents so far, and the header/trailer slots are untouched; only the active
application group is updated to this line's group, and the decoded record is
appended both to `transactions[active_message_id]` and to the cache. -/
theorem claim_C3_continuation (s : ParseState) (raw_line : String) (d : TCRDefinition) (mid : PyVal)
    (hblank : pyStrip (ljust raw_line 168) ≠ "")
    (hseq : pyStrip (pySlice (ljust raw_line 168) 3 4) = "0")
    (hfound : dictGet (pyStrip (pySlice (ljust raw_line 168) 16 20), "0") TCR_LOOKUP_MAP = some d)
    (hmid : get_field_value d (ljust raw_line 168) "Message Identifier" = .ok mid)
    (htruthy : mid.truthy = true)
    (hcur : s.current_message_id = some mid)
    (hcp : pyStartsWith (pyStrip (pySlice (ljust raw_line 168) 16 20)) "CP" = true) :
    ∃ pf, decodeFields d (ljust raw_line 168) = .ok pf ∧
      processLine s raw_line = .ok
        { s with
          active_transaction_cp_code := some (pyStrip (pySlice (ljust raw_line 168) 16 20)),
          transactions := appendTo s.transactions mid
            (tcrInfoOf d (pyStrip (pySlice (ljust raw_line 168) 0 2))
              (pyStrip (pySlice (ljust raw_line 168) 2 3)) "0" pf (pyStrip (ljust raw_line 168))),
          current_transaction_tcr_cache := s.current_transaction_tcr_cache ++
            [tcrInfoOf d (pyStrip (pySlice (ljust raw_line 168) 0 2))
              (pyStrip (pySlice (ljust raw_line 168) 2 3)) "0" pf (pyStrip (ljust raw_line 168))] } := by
  obtain ⟨pf, hpf⟩ := decodeFields_ok d (ljust raw_line 168)
  refine ⟨pf, hpf, ?_⟩
  have hdh : d ≠ TCR_HEADER := by
    intro h
    subst h
    rw [get_field_value,
      (by decide : dictGet "Message Identifier" TCR_HEADER.fields = (none : Option Field))] at hmid
    exact absurd hmid (by simp)
  have hdt : d ≠ TCR_TRAILER := by
    intro h
    subst h
    rw [get_field_value,
      (by decide : dictGet "Message Identifier" TCR_TRAILER.fields = (none : Option Field))] at hmid
    exact absurd hmid (by simp)
  rw [processLine_seq0 s raw_line hblank hseq,
    resolveSeq0_same_mid hfound hmid htruthy hcur hcp]
  obtain ⟨sh, st, stx, smid, sc, sa⟩ := s
  simp only [ParseState.current_message_id] at hcur
  subst hcur
  unfold decodeAndRoute
  try dsimp only
  rw [hpf]
  try dsimp only
  rw [if_neg hdh, if_neg hdt]
  try dsimp only
  rw [htruthy, if_pos rfl]

/-- A mid-transaction assembler state: message id `MSG000000000001` active,
group "CP01" active. -/
def w3_state : ParseState :=
  { header := none, trailer := none,
    transactions := [(.str "MSG000000000001", [])],
    current_message_id := some (.str "MSG000000000001"),
    current_transaction_tcr_cache := [],
    active_transaction_cp_code := some "CP01" }

set_option maxRecDepth 40000 in
/-- Witness for C3 at a concrete mid-transaction state and a zero-sequence
"CP01" line carrying the same message identifier. -/
theorem claim_C3_continuation_witness :
    ∃ pf, decodeFields CP01_TCR0 (ljust line0_CP01 168) = .ok pf ∧
      processLine w3_state line0_CP01 = .ok
        { w3_state with
          active_transaction_cp_code := some (pyStrip (pySlice (ljust line0_CP01 168) 16 20)),
          transactions := appendTo w3_state.transactions (.str "MSG000000000001")
            (tcrInfoOf CP01_TCR0 (pyStrip (pySlice (ljust line0_CP01 168) 0 2))
              (pyStrip (pySlice (ljust line0_CP01 168) 2 3)) "0" pf (pyStrip (ljust line0_CP01 168))),
          current_transaction_tcr_cache := w3_state.current_transaction_tcr_cache ++
            [tcrInfoOf CP01_TCR0 (pyStrip (pySlice (ljust line0_CP01 168) 0 2))
              (pyStrip (pySlice (ljust line0_CP01 168) 2 3)) "0" pf (pyStrip (ljust line0_CP01 168))] } :=
  claim_C3_continuation w3_state line0_CP01 CP01_TCR0 (.str "MSG000000000001")
    (by decide) (by decide) (by decide) (by decide) (by decide) rfl (by decide)

/-! ### Claims about whole-parse safety and the cache invariant -/


theorem processLine_ok (s : ParseState) (raw_line : String) :
    ∃ s', processLine s raw_line = .ok s' := by
  unfold processLine
  by_cases hb : pyStrip (ljust raw_line 168) = ""
  · rw [if_pos hb]; exact ⟨s, rfl⟩
  · rw [if_neg hb]
    by_cases hs0 : pyStrip (pySlice (ljust raw_line 168) 3 4) = "0"
    · rw [if_pos hs0]; exact ⟨_, rfl⟩
    · rw [if_neg hs0]
      by_cases hg : (truthyOptVal s.current_message_id &&
          truthyOptStr s.active_transaction_cp_code) = true
      · rw [if_pos hg]
        try dsimp only
        cases hl : dictGet (s.active_transaction_cp_code.getD "",
            pyStrip (pySlice (ljust raw_line 168) 3 4)) TCR_LOOKUP_MAP with
        | some d => exact ⟨_, rfl⟩
        | none =>
          by_cases h9 : pyStrip (pySlice (ljust raw_line 168) 3 4) = "9" ∧
              s.active_transaction_cp_code.getD "" = "CP01"
          · rw [h9.1, h9.2] at hl
            exact absurd hl (by decide)
          · rw [if_neg h9]; exact ⟨s, rfl⟩
      · rw [if_neg hg]; exact ⟨s, rfl⟩

theorem processLines_ok (ls : List String) (s : ParseState) :
    ∃ s', processLines s ls = .ok s' := by
  induction ls generalizing s with
  | nil => exact ⟨s, rfl⟩
  | cons l rest ih =>
    obtain ⟨s1, h1⟩ := processLine_ok s l
    obtain ⟨s2, h2⟩ := ih s1
    refine ⟨s2, ?_⟩
    unfold processLines
    rw [h1]
    exact h2

/-- C6: for every input string, `parse_tc33_file` terminates (it is a total
function over the list of lines) and returns `.ok` of a result carrying the
header, trailer and transactions entries — the instrumented exception monad
never escapes with `.error`, because the only uncaught raise point sits in
the contextual-override branch, which is unreachable since the primary
lookup at `("CP01", "9")` always succeeds. -/
theorem claim_C6_total (file_content : String) :
    ∃ r : ParseResult, parse_tc33_file file_content = .ok r := by
  obtain ⟨s, hs⟩ := processLines_ok (splitlines file_content) initState
  refine ⟨{ header := s.header, trailer := s.trailer, transactions := s.transactions }, ?_⟩
  unfold parse_tc33_file
  rw [hs]



/-- The cache/bucket coupling invariant of the assembler state: whenever a
message id is active, the per-transaction cache is a suffix of the bucket
stored under that id (the empty list when the key is absent). -/
def CacheInv (s : ParseState) : Prop :=
  ∀ mid, s.current_message_id = some mid →
    s.current_transaction_tcr_cache <:+ (dictGet mid s.transactions).getD []

theorem dictGet_appendTo (txs : List (PyVal × List TcrInfo)) (k : PyVal) (r : TcrInfo) :
    dictGet k (appendTo txs k r) = some ((dictGet k txs).getD [] ++ [r]) := by
  induction txs with
  | nil => simp [appendTo, dictGet]
  | cons p rest ih =>
    obtain ⟨k', l⟩ := p
    by_cases h : k' = k
    · subst h; simp [appendTo, dictGet]
    · simp [appendTo, dictGet, h, ih]

theorem suffix_append_one {α : Type} {c l : List α} (h : c <:+ l) (r : α) :
    c ++ [r] <:+ l ++ [r] := by
  obtain ⟨t, ht⟩ := h
  exact ⟨t, by rw [← List.append_assoc, ht]⟩

theorem cacheInv_decodeAndRoute (s : ParseState) (d? : Option TCRDefinition)
    (a b c e f : String) (hs : CacheInv s) :
    CacheInv (decodeAndRoute s d? a b c e f) := by
  obtain ⟨sh, st, stx, smid, sc, sa⟩ := s
  unfold decodeAndRoute
  cases d? with
  | none => exact hs
  | some d =>
    try dsimp only
    cases hdf : decodeFields d e with
    | error err => exact hs
    | ok pf =>
      try dsimp only
      by_cases hH : d = TCR_HEADER
      · rw [if_pos hH]
        intro mid hm
        exact hs mid hm
      · rw [if_neg hH]
        by_cases hT : d = TCR_TRAILER
        · rw [if_pos hT]
          intro mid hm
          exact hs mid hm
        · rw [if_neg hT]
          cases hc : smid with
          | none =>
            rw [hc] at hs
            exact hs
          | some m =>
            rw [hc] at hs
            try dsimp only
            by_cases hmt : m.truthy = true
            · rw [if_pos hmt]
              intro mid hm
              have hmm : m = mid := by
                have h2 : some m = some mid := hm
                injection h2
              subst hmm
              have hsuf := hs m rfl
              try dsimp only
              rw [dictGet_appendTo]
              exact suffix_append_one hsuf _
            · rw [if_neg hmt]
              exact hs


theorem cacheInv_resolveSeq0 (s : ParseState) (line appc : String) (hs : CacheInv s) :
    CacheInv (resolveSeq0 s line appc).1 := by
  unfold resolveSeq0
  cases dictGet (appc, "0") TCR_LOOKUP_MAP with
  | none => exact hs
  | some d =>
    try dsimp only
    by_cases hmi : (dictGet "Message Identifier" d.fields).isSome = true
    · rw [if_pos hmi]
      cases get_field_value d line "Message Identifier" with
      | error e =>
        intro mid hm
        exact Option.noConfusion hm
      | ok m =>
        try dsimp only
        by_cases hmt : m.truthy = true
        · rw [if_pos hmt]
          by_cases hnew : s.current_message_id = none ∨ some m ≠ s.current_message_id
          · rw [if_pos hnew]
            intro mid hm
            exact List.nil_suffix
          · rw [if_neg hnew]
            by_cases hcp : pyStartsWith appc "CP" = true
            · rw [if_pos hcp]
              intro mid hm
              exact hs mid hm
            · rw [if_neg hcp]
              exact hs
        · rw [if_neg hmt]
          intro mid hm
          exact Option.noConfusion hm
    · rw [if_neg hmi]
      intro mid hm
      exact Option.noConfusion hm

theorem cacheInv_processLine (s : ParseState) (raw_line : String) (s' : ParseState)
    (h : processLine s raw_line = .ok s') (hs : CacheInv s) : CacheInv s' := by
  unfold processLine at h
  by_cases hb : pyStrip (ljust raw_line 168) = ""
  · rw [if_pos hb] at h
    injection h with h
    subst h
    exact hs
  · rw [if_neg hb] at h
    by_cases hs0 : pyStrip (pySlice (ljust raw_line 168) 3 4) = "0"
    · rw [if_pos hs0] at h
      injection h with h
      subst h
      exact cacheInv_decodeAndRoute _ _ _ _ _ _ _ (cacheInv_resolveSeq0 s _ _ hs)
    · rw [if_neg hs0] at h
      by_cases hg : (truthyOptVal s.current_message_id &&
          truthyOptStr s.active_transaction_cp_code) = true
      · rw [if_pos hg] at h
        try dsimp only at h
        cases hl : dictGet (s.active_transaction_cp_code.getD "",
            pyStrip (pySlice (ljust raw_line 168) 3 4)) TCR_LOOKUP_MAP with
        | some d =>
          rw [hl] at h
          injection h with h
          subst h
          exact cacheInv_decodeAndRoute _ _ _ _ _ _ _ hs
        | none =>
          rw [hl] at h
          by_cases h9 : pyStrip (pySlice (ljust raw_line 168) 3 4) = "9" ∧
              s.active_transaction_cp_code.getD "" = "CP01"
          · rw [h9.1, h9.2] at hl
            exact absurd hl (by decide)
          · rw [if_neg h9] at h
            injection h with h
            subst h
            exact hs
      · rw [if_neg hg] at h
        injection h with h
        subst h
        exact hs

theorem cacheInv_processLines (lines : List String) :
    ∀ s s', processLines s lines = .ok s' → CacheInv s → CacheInv s' := by
  induction lines with
  | nil =>
    intro s s' h hs
    simp only [processLines] at h
    injection h with h
    subst h
    exact hs
  | cons l rest ih =>
    intro s s' h hs
    simp only [processLines] at h
    cases hpl : processLine s l with
    | error e =>
      rw [hpl] at h
      exact Except.noConfusion h
    | ok s1 =>
      rw [hpl] at h
      exact ih s1 s' h (cacheInv_processLine s l s1 hpl hs)

/-- C10: throughout a parse (after any list of lines processed from the
initial state), whenever an active message id is set, the per-transaction
cache is a suffix of the bucket stored in `transactions` under that id (the
empty list when the key is absent): records are appended to bucket and cache
together, and the cache restarts empty exactly when a new transaction starts
or the context resets, so a reappearing message id merges into its old
bucket while the cache holds only the current contiguous run. -/
theorem claim_C10_cache_suffix (lines : List String) (s' : ParseState)
    (h : processLines initState lines = .ok s') : CacheInv s' :=
  cacheInv_processLines lines initState s' h (fun _ hm => Option.noConfusion hm)

set_option maxRecDepth 40000 in
/-- Witness for C10 after processing one concrete transaction-starting line. -/
theorem claim_C10_cache_suffix_witness :
    CacheInv ((processLines initState [line0_CP01]).toOption.getD initState) :=
  claim_C10_cache_suffix [line0_CP01]
    ((processLines initState [line0_CP01]).toOption.getD initState) (by decide)


end TC33
